import Mathlib

/-!
Shallow embedding of the work-order (ticket) routing and status engine of the
gonghui repository: the SQLite-backed ticket store (`db_manager.py`) and the
dispatch page logic (`pages/工单调度.py`).  Tables are embedded as Lean lists of
rows kept in insertion (rowid) order; timestamps are naturals; SQL `NULL` on
nullable text columns is `Option String`.  Each Python function used by a claim
is translated into a Lean definition of the same name (snake-case kept where
Lean allows).
-/

namespace Gonghui

/-- Character-list scan used to embed Python's `needle in hay` and SQL's
`LIKE '%needle%'`: true iff `needle` occurs as a contiguous substring. -/
def subSeek (needle : List Char) : List Char → Bool
  | [] => needle.isEmpty
  | c :: rest => needle.isPrefixOf (c :: rest) || subSeek needle rest

/-- `strContainsSub hay needle` : `needle` is a substring of `hay`. -/
def strContainsSub (hay needle : String) : Bool :=
  subSeek needle.data hay.data

/-- A row of the `problems` table (the columns the dispatch logic reads).
`processing_person` is nullable in the schema (`reject_work_order` sets it to
SQL NULL), hence `Option String`. -/
structure Problem where
  id : Nat
  title : String
  author : String
  department : String
  status : String
  processing_unit : String
  processing_person : Option String
  processing_status : String
  is_processing : Bool
  is_resolved : Bool
  response_department : String
  initial_processing_unit : String
  initial_status : String
  updated_at : Nat
  deriving Repr, DecidableEq

/-- A row of the `problem_departments` association table. -/
structure DeptAssoc where
  problem_id : Nat
  department : String
  is_primary : Bool
  assigned_at : Nat
  assigned_by : String
  deriving Repr, DecidableEq

/-- A row of the append-only `processing_records` table. -/
structure ProcessingRecord where
  problem_id : Nat
  processor : String
  measure : String
  department : String
  assigned_to : Option String
  created_at : Nat
  deriving Repr, DecidableEq

/-- A row of the append-only `status_logs` table.  `old_status` is nullable:
it is filled by a subselect that yields NULL when no problem row matches. -/
structure StatusLog where
  problem_id : Nat
  old_status : Option String
  new_status : String
  operator : String
  comment : String
  created_at : Nat
  deriving Repr, DecidableEq

/-- The ticket store: the four tables the routing engine reads and writes.
Lists are kept in insertion order (SQLite rowid order; `created_at` order for
the append-only tables, timestamps being monotone). -/
structure DBState where
  problems : List Problem
  problem_departments : List DeptAssoc
  processing_records : List ProcessingRecord
  status_logs : List StatusLog
  deriving Repr, DecidableEq

/-- `SELECT * FROM problems WHERE id = ?` (first matching row). -/
def getProblemById (st : DBState) (pid : Nat) : Option Problem :=
  st.problems.find? (fun p => p.id == pid)

/-- Stable insertion step for embedding SQL `ORDER BY`: `x` is placed before
the first element that is not strictly before it, so equal keys keep their
table order. -/
def insertSorted {α : Type} (lt : α → α → Bool) (x : α) : List α → List α
  | [] => [x]
  | y :: ys => if lt y x then y :: insertSorted lt x ys else x :: y :: ys

/-- Stable sort by a strict `before` comparator (embeds SQL `ORDER BY`, with
rowid order as the tie-break, which is how SQLite returns these queries). -/
def stableSortBy {α : Type} (lt : α → α → Bool) (l : List α) : List α :=
  l.foldr (insertSorted lt) []

/-- The comparator of `ORDER BY is_primary DESC, assigned_at ASC`. -/
def assocBefore (a b : DeptAssoc) : Bool :=
  (a.is_primary && !b.is_primary) ||
    (a.is_primary == b.is_primary && a.assigned_at < b.assigned_at)

/-- `db_manager.get_problem_departments`: all association rows of the ticket,
`ORDER BY is_primary DESC, assigned_at ASC`. -/
def get_problem_departments (st : DBState) (pid : Nat) : List DeptAssoc :=
  stableSortBy assocBefore
    (st.problem_departments.filter (fun a => a.problem_id == pid))

/-- `db_manager.assign_to_multiple_departments`: delete every association row
of the ticket, then insert one row per department, the first flagged primary.
All inserted rows share the statement timestamp `now`. -/
def assign_to_multiple_departments (st : DBState) (pid : Nat)
    (departments : List String) (operator : String) (now : Nat) : DBState :=
  let kept := st.problem_departments.filter (fun a => !(a.problem_id == pid))
  let newRows := departments.enum.map
    (fun idxDept => DeptAssoc.mk pid idxDept.2 (idxDept.1 == 0) now operator)
  { st with problem_departments := kept ++ newRows }

/-- `db_manager.get_processing_records`: records of the ticket, `ORDER BY
created_at ASC` (equals insertion order of the append-only table). -/
def get_processing_records (st : DBState) (pid : Nat) : List ProcessingRecord :=
  st.processing_records.filter (fun r => r.problem_id == pid)

/-- `db_manager.add_processing_record`: append one audit row. -/
def add_processing_record (st : DBState) (pid : Nat) (processor measure : String)
    (department : String) (assigned_to : Option String) (now : Nat) : DBState :=
  { st with processing_records :=
      st.processing_records ++
        [ProcessingRecord.mk pid processor measure department assigned_to now] }

/-- `db_manager.update_problem_status`: `UPDATE problems SET status = ?,
updated_at = ?` and then insert a status log whose `old_status` is filled by
`(SELECT status FROM problems WHERE id = ?)` — a subselect executed *after*
the update, so it reads the already-updated row. -/
def update_problem_status (st : DBState) (pid : Nat)
    (new_status operator comment : String) (now : Nat) : DBState :=
  let problems1 := st.problems.map
    (fun p => if p.id == pid then { p with status := new_status, updated_at := now } else p)
  let oldRead := (problems1.find? (fun p => p.id == pid)).map Problem.status
  { st with
      problems := problems1,
      status_logs := st.status_logs ++
        [StatusLog.mk pid oldRead new_status operator comment now] }

/-- SQL `(SELECT COUNT(*) FROM processing_records pr WHERE pr.problem_id = p.id)`:
the `processing_records_count` column the list queries attach to each ticket. -/
def processing_records_count (st : DBState) (pid : Nat) : Nat :=
  st.processing_records.countP (fun r => r.problem_id == pid)

/-- `db_manager.check_all_collaborative_departments_processed` (the page module
carries a verbatim copy): fetch the ticket's association departments *other
than the dispatch center* (ordered by `is_primary DESC, assigned_at ASC`);
with at most one such department return true; otherwise every one of them must
own at least one record whose measure matches `LIKE '%处理回复%'`. -/
def check_all_collaborative_departments_processed (st : DBState) (pid : Nat) : Bool :=
  let departments :=
    (stableSortBy assocBefore
      (st.problem_departments.filter
        (fun a => a.problem_id == pid && a.department != "调度中心"))).map
      DeptAssoc.department
  if departments.length ≤ 1 then
    true
  else
    departments.all (fun dept =>
      0 < st.processing_records.countP
        (fun r => r.problem_id == pid && r.department == dept &&
          strContainsSub r.measure "处理回复"))

/-- `工单调度.is_collaboration_work_order`: the ticket counts as collaborative
iff more than one non-dispatch-center association row exists. -/
def is_collaboration_work_order (st : DBState) (pid : Nat) : Bool :=
  1 < st.problem_departments.countP
    (fun a => a.problem_id == pid && a.department != "调度中心")

/-- `db_manager.is_department_assigned_to_problem`: an association row exists
for the (ticket, department) pair. -/
def is_department_assigned_to_problem (st : DBState) (pid : Nat) (department : String) : Bool :=
  0 < st.problem_departments.countP
    (fun a => a.problem_id == pid && a.department == department)

/-- `db_manager.is_department_collaborating_on_problem`: a processing record of
that department matches `LIKE '%协同%'`. -/
def is_department_collaborating_on_problem (st : DBState) (pid : Nat) (department : String) : Bool :=
  0 < st.processing_records.countP
    (fun r => r.problem_id == pid && r.department == department &&
      strContainsSub r.measure "协同")

/-- `工单调度.is_rejected_work_order`: walk the ticket's processing records
from newest to oldest and report true as soon as any record's measure contains
`"工单被驳回"` or `"驳回"`; records without the marker are skipped, so the scan
succeeds whenever any record of the history carries the marker. -/
def is_rejected_work_order (st : DBState) (pid : Nat) : Bool :=
  ((get_processing_records st pid).reverse).any
    (fun r => strContainsSub r.measure "工单被驳回" || strContainsSub r.measure "驳回")

/-- Python's `str.strip()`: drop leading and trailing whitespace. -/
def pyStrip (s : String) : String :=
  String.mk (((s.data.dropWhile Char.isWhitespace).reverse.dropWhile
    Char.isWhitespace).reverse)

/-- Python truthiness of `unit and unit.strip()` on a string column. -/
def strTruthyTrimmed (s : String) : Bool :=
  s != "" && pyStrip s != ""

/-- The guarded assignment computing `is_rejected_to_dispatch` in
`render_work_order_operation` (short-circuit evaluation of `status == '待处理'
and unit == '调度中心' and count > 0` guarding the `is_rejected_work_order`
call): raw status `待处理`, processing department `调度中心`, at least one
processing record, and `is_rejected_work_order`. -/
def rejected_to_dispatch_condition (st : DBState) (p : Problem) : Bool :=
  p.status == "待处理" && p.processing_unit == "调度中心" &&
    decide (0 < processing_records_count st p.id) && is_rejected_work_order st p.id

/-- The display-status derivation of `工单调度.render_work_order_operation`
(the same cascade, without the rejected-to-dispatch step and collaborative
variants, also lives in `db_manager._calculate_status_for_statistics`):
resolved flag first, then raw `已处理回复` with collaborative sub-classing,
then the rejected-to-dispatch-center detection, then the processing and
assigned heuristics, else pending. -/
def displayStatus (st : DBState) (p : Problem) : String :=
  let status := p.status
  let cnt := processing_records_count st p.id
  let is_collaborative := is_collaboration_work_order st p.id
  if p.is_resolved then "已办结"
  else if status == "已处理回复" then
    if is_collaborative then
      if check_all_collaborative_departments_processed st p.id then
        "已处理回复（协同完成）"
      else
        "已处理回复（协同处理中）"
    else "已处理回复"
  else
    let is_rejected_to_dispatch := rejected_to_dispatch_condition st p
    if is_rejected_to_dispatch then "待处理"
    else if p.is_processing || (decide (0 < cnt) && status != "待处理") then
      if is_collaborative then "处理中（协同处理）" else "处理中"
    else if status == "已派发" || (strTruthyTrimmed p.processing_unit && status != "待处理") then
      if is_collaborative then "已派发（协同派单）" else "已派发"
    else "待处理"

/-- The permission check of `工单调度.render_work_order_operation`: whether the
actor (role, department) may operate on the ticket, given its derived display
status.  Dispatch-center staff of any management role get the pending / dispatch-owned
/ collaboratively-complete-replied scope; other admins only their own tickets;
other processors and managers additionally tickets their department is
associated with or collaborating on — except that a plainly replied ticket of a
foreign processing department is always off-limits. -/
def canOperate (st : DBState) (p : Problem) (role user_department : String) : Bool :=
  let display_status := displayStatus st p
  let processing_unit := p.processing_unit
  let is_collaborative := is_collaboration_work_order st p.id
  if role == "admin" then
    if user_department == "调度中心" then
      display_status == "待处理" || processing_unit == "调度中心" ||
        (display_status == "已处理回复（协同完成）" && is_collaborative)
    else
      if display_status == "已处理回复" && processing_unit != user_department then
        false
      else
        processing_unit == user_department
  else
    if user_department == "调度中心" then
      display_status == "待处理" || processing_unit == "调度中心" ||
        (display_status == "已处理回复（协同完成）" && is_collaborative)
    else
      if display_status == "已处理回复" && processing_unit != user_department then
        false
      else
        processing_unit == user_department ||
          is_department_assigned_to_problem st p.id user_department ||
          is_department_collaborating_on_problem st p.id user_department

/-- First commit of `工单调度.reject_work_order`: the call to
`db.update_problem_status(pid, "待处理", operator, "工单被驳回，驳回原因：…")`,
which runs on its own connection and commits. -/
def rejectTxn1 (pid : Nat) (operator reject_reason : String) (now : Nat)
    (st : DBState) : DBState :=
  update_problem_status st pid "待处理" operator
    ("工单被驳回，驳回原因：" ++ reject_reason) now

/-- Second commit of `reject_work_order`: `UPDATE problems SET processing_unit
= '调度中心', processing_person = NULL, processing_status = '待处理',
is_processing = 0, updated_at = ?`, on a fresh connection. -/
def rejectTxn2 (pid : Nat) (now : Nat) (st : DBState) : DBState :=
  { st with problems := st.problems.map (fun p =>
      if p.id == pid then
        { p with processing_unit := "调度中心", processing_person := none,
                 processing_status := "待处理", is_processing := false,
                 updated_at := now }
      else p) }

/-- Third commit of `reject_work_order`: delete every association row of the
ticket and insert the single primary dispatch-center row, on a fresh
connection. -/
def rejectTxn3 (pid : Nat) (operator : String) (now : Nat) (st : DBState) : DBState :=
  { st with problem_departments :=
      st.problem_departments.filter (fun a => !(a.problem_id == pid)) ++
        [DeptAssoc.mk pid "调度中心" true now operator] }

/-- Fourth commit of `reject_work_order`: `db.add_processing_record` with the
rejection measure, the rejecting actor's department and target `待分配`. -/
def rejectTxn4 (pid : Nat) (operator reject_reason user_department : String)
    (now : Nat) (st : DBState) : DBState :=
  add_processing_record st pid operator
    ("工单被驳回，驳回原因：" ++ reject_reason ++ "，流转至调度中心")
    user_department (some "待分配") now

/-- The separately committed units of work `工单调度.reject_work_order` runs,
in execution order; each opens its own connection and commits before the next
starts.  `user_department` stands for the actor's department as read from the
`users` table (that table is not modelled; the value is passed in). -/
def rejectWorkOrderTxns (pid : Nat) (operator reject_reason user_department : String)
    (now : Nat) : List (DBState → DBState) :=
  [rejectTxn1 pid operator reject_reason now,
   rejectTxn2 pid now,
   rejectTxn3 pid operator now,
   rejectTxn4 pid operator reject_reason user_department now]

/-- `工单调度.reject_work_order`: the four commits run in sequence. -/
def reject_work_order (st : DBState) (pid : Nat)
    (operator reject_reason user_department : String) (now : Nat) : DBState :=
  rejectTxn4 pid operator reject_reason user_department now
    (rejectTxn3 pid operator now
      (rejectTxn2 pid now
        (rejectTxn1 pid operator reject_reason now st)))

/-- `工单调度.process_reply_work_order`: read the ticket and its association
rows, flag it collaborative when more than one association row exists (the
dispatch-center row included here), set raw status to `已处理回复`, then — for a
collaborative ticket — ask `check_all_collaborative_departments_processed`
*before* this reply's own record is inserted; flow to the dispatch center
(processing-unit update plus association replacement) only when that check
passed or the ticket is not collaborative, and finally append this reply's
processing record.  The extra SELECT in the flow-to-dispatch branch only feeds
an on-screen table: it re-reads the just-replaced associations (every
non-dispatch-center row is already gone inside the same connection), so its
loop body never runs and it writes nothing to the store. -/
def process_reply_work_order (st : DBState) (pid : Nat)
    (processor reply_content user_department : String) (now : Nat) : DBState :=
  match getProblemById st pid with
  | none => st
  | some problem =>
    let problem_departments := get_problem_departments st pid
    let is_collaborative := problem_departments.length > 1
    let st1 := update_problem_status st pid "已处理回复" processor
      ("处理回复：" ++ reply_content) now
    let targetClear : String × Option String × Bool :=
      if is_collaborative then
        if check_all_collaborative_departments_processed st1 pid then
          ("调度中心", some "待分配", true)
        else
          (problem.processing_unit, problem.processing_person, false)
      else
        ("调度中心", some "待分配", true)
    let target_department := targetClear.1
    let target_person := targetClear.2.1
    let clear_multiple_departments := targetClear.2.2
    let st2 :=
      if clear_multiple_departments then
        { st1 with
            problems := st1.problems.map (fun p =>
              if p.id == pid then
                { p with processing_unit := target_department,
                         processing_status := "已处理回复", updated_at := now }
              else p),
            problem_departments :=
              st1.problem_departments.filter (fun a => !(a.problem_id == pid)) ++
                [DeptAssoc.mk pid target_department true now processor] }
      else
        { st1 with problems := st1.problems.map (fun p =>
            if p.id == pid then { p with updated_at := now } else p) }
    let measure_text :=
      if clear_multiple_departments then
        "处理回复，流转至" ++ target_department ++ "：" ++ reply_content
      else
        "处理回复（协同处理中）：" ++ reply_content
    add_processing_record st2 pid processor measure_text user_department
      target_person now

/-- `db_manager.save_problem`: a non-empty response department other than
`未定` and `调度中心` makes the ticket start as `已派发` with that department as
processing unit and sole primary association; otherwise the row keeps the
schema default status `待处理` (the INSERT lists no `status` column), the
processing unit is the dispatch center and the sole primary association is the
dispatch center.  `pid` stands for the fresh `lastrowid`. -/
def save_problem (st : DBState) (pid : Nat)
    (title category description author contact_info department : String)
    (response_department : String) (now : Nat) : DBState :=
  let isDirect := response_department != "" &&
    response_department != "未定" && response_department != "调度中心"
  let initial_processing_unit := if isDirect then response_department else "调度中心"
  let initial_status := if isDirect then "已派发" else "待处理"
  let row : Problem :=
    { id := pid, title := title, author := author, department := department,
      status := "待处理", processing_unit := initial_processing_unit,
      processing_person := some "", processing_status := "待处理",
      is_processing := false, is_resolved := false,
      response_department := response_department,
      initial_processing_unit := initial_processing_unit,
      initial_status := initial_status, updated_at := now }
  let st1 := { st with problems := st.problems ++ [row] }
  if isDirect then
    { st1 with
        problems := st1.problems.map (fun p =>
          if p.id == pid then
            { p with processing_unit := response_department, status := "已派发" }
          else p),
        problem_departments := st1.problem_departments ++
          [DeptAssoc.mk pid response_department true now author] }
  else
    { st1 with problem_departments := st1.problem_departments ++
        [DeptAssoc.mk pid "调度中心" true now author] }

/-- First-match-wins evaluation of an ordered condition/result list, with a
default result: the shape in which the spec states the display-status
derivation. -/
def firstMatch : List (Bool × String) → String → String
  | [], dflt => dflt
  | (cond, res) :: rest, dflt => if cond then res else firstMatch rest dflt

/-- The sub-classified replied result of display-status step 2. -/
def repliedResult (st : DBState) (p : Problem) : String :=
  if is_collaboration_work_order st p.id then
    if check_all_collaborative_departments_processed st p.id then
      "已处理回复（协同完成）"
    else
      "已处理回复（协同处理中）"
  else "已处理回复"

/-- Display status as the claim words it, precedence order with first match
winning; step 5 reads the processing department as merely *non-empty*. -/
def displayStatusClaimed (st : DBState) (p : Problem) : String :=
  firstMatch
    [ (p.is_resolved, "已办结"),
      (p.status == "已处理回复", repliedResult st p),
      (rejected_to_dispatch_condition st p, "待处理"),
      (p.is_processing ||
        (decide (0 < processing_records_count st p.id) && p.status != "待处理"),
        if is_collaboration_work_order st p.id then "处理中（协同处理）" else "处理中"),
      (p.status == "已派发" || (p.processing_unit != "" && p.status != "待处理"),
        if is_collaboration_work_order st p.id then "已派发（协同派单）" else "已派发") ]
    "待处理"

/-- Display status as the amended claim words it: identical precedence list,
but step 5 requires the processing department to be non-blank (non-empty after
stripping whitespace), matching the source's `unit and unit.strip()` test. -/
def displayStatusAmended (st : DBState) (p : Problem) : String :=
  firstMatch
    [ (p.is_resolved, "已办结"),
      (p.status == "已处理回复", repliedResult st p),
      (rejected_to_dispatch_condition st p, "待处理"),
      (p.is_processing ||
        (decide (0 < processing_records_count st p.id) && p.status != "待处理"),
        if is_collaboration_work_order st p.id then "处理中（协同处理）" else "处理中"),
      (p.status == "已派发" || (pyStrip p.processing_unit != "" && p.status != "待处理"),
        if is_collaboration_work_order st p.id then "已派发（协同派单）" else "已派发") ]
    "待处理"

/-- A whitespace-only processing unit is non-empty yet blank: the one input
class on which the claimed step 5 and the source differ. -/
def blankUnitProblem : Problem :=
  { id := 1, title := "t", author := "a", department := "网络部",
    status := "处理中", processing_unit := " ", processing_person := none,
    processing_status := "处理中", is_processing := false, is_resolved := false,
    response_department := "网络部", initial_processing_unit := "网络部",
    initial_status := "已派发", updated_at := 0 }

/-- Store holding only `blankUnitProblem`: no records, no associations. -/
def blankUnitState : DBState :=
  { problems := [blankUnitProblem], problem_departments := [],
    processing_records := [], status_logs := [] }

/-- Whether a department already owns a processed-reply record of the ticket:
`COUNT(*) ... WHERE problem_id = ? AND department = ? AND measure LIKE
'%处理回复%'` being positive. -/
def dept_has_reply_record (st : DBState) (pid : Nat) (dept : String) : Bool :=
  0 < st.processing_records.countP
    (fun r => r.problem_id == pid && r.department == dept &&
      strContainsSub r.measure "处理回复")

/-- `allDepartmentsProcessed` as the claim words it: true whenever the
ticket's department-association count (all associations) is at most 1, and
otherwise true iff every non-dispatch-center department of the association set
has a processed-reply record. -/
def allDepartmentsProcessedClaimed (st : DBState) (pid : Nat) : Bool :=
  if st.problem_departments.countP (fun a => a.problem_id == pid) ≤ 1 then
    true
  else
    ((st.problem_departments.filter
        (fun a => a.problem_id == pid && a.department != "调度中心")).map
      DeptAssoc.department).all (dept_has_reply_record st pid)

/-- `allDepartmentsProcessed` as amended: the count that short-circuits to
true is the count of *non-dispatch-center* associations, exactly the list the
source fetches before its length test. -/
def allDepartmentsProcessedAmended (st : DBState) (pid : Nat) : Bool :=
  let depts := (st.problem_departments.filter
      (fun a => a.problem_id == pid && a.department != "调度中心")).map
    DeptAssoc.department
  if depts.length ≤ 1 then true
  else depts.all (dept_has_reply_record st pid)

/-- Rejected-to-dispatch-center detection as the claim words it: the decision
is read off the most recent processing record alone. -/
def latest_record_rejected (st : DBState) (pid : Nat) : Bool :=
  match (get_processing_records st pid).getLast? with
  | some r => strContainsSub r.measure "工单被驳回" || strContainsSub r.measure "驳回"
  | none => false

/-- Step-3 condition as the claim words it: same status/unit/count guards, but
the marker is looked for only in the latest record. -/
def rejected_to_dispatch_claimed (st : DBState) (p : Problem) : Bool :=
  p.status == "待处理" && p.processing_unit == "调度中心" &&
    decide (0 < processing_records_count st p.id) && latest_record_rejected st p.id

/-- A ticket with an association set of the dispatch center plus one working
department: collaborative by total count, not by non-dispatch count. -/
def mixedAssocState : DBState :=
  { problems := [],
    problem_departments :=
      [DeptAssoc.mk 1 "调度中心" true 0 "调度员",
       DeptAssoc.mk 1 "销售部" false 0 "调度员"],
    processing_records := [], status_logs := [] }

/-- A bounced-then-annotated ticket: sitting at the dispatch center as
`待处理`, its history holds an old rejection record followed by a newer record
without any rejection marker. -/
def staleRejectProblem : Problem :=
  { id := 1, title := "t", author := "a", department := "网络部",
    status := "待处理", processing_unit := "调度中心", processing_person := none,
    processing_status := "待处理", is_processing := false, is_resolved := false,
    response_department := "调度中心", initial_processing_unit := "调度中心",
    initial_status := "待处理", updated_at := 0 }

/-- Store for `staleRejectProblem`: rejection record first, a plain
supplementary note last. -/
def staleRejectState : DBState :=
  { problems := [staleRejectProblem],
    problem_departments := [DeptAssoc.mk 1 "调度中心" true 30 "王五"],
    processing_records :=
      [ProcessingRecord.mk 1 "王五" "工单被驳回，驳回原因：不属实，流转至调度中心" "人力部" (some "待分配") 30,
       ProcessingRecord.mk 1 "调度员" "补充材料：用户已提供截图" "调度中心" (some "待分配") 40],
    status_logs := [] }

/-- Collaborative ticket mid-scenario: dispatched to sales (`销售部`, primary)
and support (`客服部`); sales has accepted and already recorded its
processed-reply; support has not yet replied. -/
def replyScenarioProblem : Problem :=
  { id := 1, title := "t", author := "a", department := "网络部",
    status := "已处理回复", processing_unit := "销售部",
    processing_person := some "张三", processing_status := "已处理回复",
    is_processing := true, is_resolved := false,
    response_department := "调度中心", initial_processing_unit := "调度中心",
    initial_status := "待处理", updated_at := 20 }

/-- Store for `replyScenarioProblem`, right before support's reply. -/
def replyScenarioState : DBState :=
  { problems := [replyScenarioProblem],
    problem_departments :=
      [DeptAssoc.mk 1 "销售部" true 10 "调度员",
       DeptAssoc.mk 1 "客服部" false 10 "调度员"],
    processing_records :=
      [ProcessingRecord.mk 1 "张三" "处理回复（协同处理中）：已核查" "销售部" (some "张三") 20],
    status_logs := [] }

/-- Support's reply on `replyScenarioState`. -/
def replyScenarioAfter : DBState :=
  process_reply_work_order replyScenarioState 1 "李四" "已解决" "客服部" 30

/-- A single-department assigned ticket, about to be rejected. -/
def assignedHRProblem : Problem :=
  { id := 1, title := "t", author := "a", department := "网络部",
    status := "已派发", processing_unit := "人力部",
    processing_person := some "王五", processing_status := "待处理",
    is_processing := false, is_resolved := false,
    response_department := "调度中心", initial_processing_unit := "调度中心",
    initial_status := "待处理", updated_at := 10 }

/-- Store for `assignedHRProblem`: one primary association for `人力部` and
the dispatch processing record. -/
def assignedHRState : DBState :=
  { problems := [assignedHRProblem],
    problem_departments := [DeptAssoc.mk 1 "人力部" true 10 "调度员"],
    processing_records :=
      [ProcessingRecord.mk 1 "调度员" "工单已派发，派发意见：请核查" "调度中心" (some "王五") 10],
    status_logs := [] }

/-- A pending ticket row used to exercise the status-log write. -/
def pendingLogProblem : Problem :=
  { id := 1, title := "t", author := "a", department := "网络部",
    status := "待处理", processing_unit := "调度中心", processing_person := some "",
    processing_status := "待处理", is_processing := false, is_resolved := false,
    response_department := "调度中心", initial_processing_unit := "调度中心",
    initial_status := "待处理", updated_at := 0 }

/-- Store holding only `pendingLogProblem`, with an empty status log. -/
def pendingLogState : DBState :=
  { problems := [pendingLogProblem],
    problem_departments := [DeptAssoc.mk 1 "调度中心" true 0 "张三"],
    processing_records := [], status_logs := [] }

/-- A plainly replied (non-collaborative) ticket whose processing department is
`市场部`, while `人力部` sits in its association set and also owns a
collaboration-marked record. -/
def repliedForeignProblem : Problem :=
  { id := 1, title := "t", author := "a", department := "网络部",
    status := "已处理回复", processing_unit := "市场部",
    processing_person := some "赵六", processing_status := "已处理回复",
    is_processing := true, is_resolved := false,
    response_department := "调度中心", initial_processing_unit := "调度中心",
    initial_status := "待处理", updated_at := 6 }

/-- Store for `repliedForeignProblem`. -/
def repliedForeignState : DBState :=
  { problems := [repliedForeignProblem],
    problem_departments := [DeptAssoc.mk 1 "人力部" true 5 "调度员"],
    processing_records :=
      [ProcessingRecord.mk 1 "赵六" "协同处理：协助核查" "人力部" (some "钱七") 6],
    status_logs := [] }

/-- The empty store: fresh database. -/
def emptyState : DBState :=
  { problems := [], problem_departments := [], processing_records := [],
    status_logs := [] }

/-! ### Helper lemmas -/

theorem strTruthyTrimmed_eq_strip (s : String) : strTruthyTrimmed s = (pyStrip s != "") := by
  by_cases h : s = ""
  · subst h; decide
  · have hb : (s == "") = false := by simpa using h
    simp [strTruthyTrimmed, bne, hb]

theorem insertSorted_length {α : Type} (lt : α → α → Bool) (x : α) (l : List α) :
    (insertSorted lt x l).length = l.length + 1 := by
  induction l with
  | nil => rfl
  | cons y ys ih =>
    simp only [insertSorted]
    split
    · simp [ih]
    · simp

theorem stableSortBy_length {α : Type} (lt : α → α → Bool) (l : List α) :
    (stableSortBy lt l).length = l.length := by
  induction l with
  | nil => rfl
  | cons y ys ih =>
    simp only [stableSortBy, List.foldr_cons] at *
    rw [insertSorted_length, ih, List.length_cons]

theorem insertSorted_all {α : Type} (lt : α → α → Bool) (p : α → Bool) (x : α) (l : List α) :
    (insertSorted lt x l).all p = (p x && l.all p) := by
  induction l with
  | nil => simp [insertSorted]
  | cons y ys ih =>
    simp only [insertSorted]
    split
    · simp only [List.all_cons, ih]
      cases p x <;> cases p y <;> simp
    · simp [List.all_cons]

theorem stableSortBy_all {α : Type} (lt : α → α → Bool) (p : α → Bool) (l : List α) :
    (stableSortBy lt l).all p = l.all p := by
  induction l with
  | nil => rfl
  | cons y ys ih =>
    simp only [stableSortBy, List.foldr_cons] at *
    rw [insertSorted_all, ih, List.all_cons]

theorem all_map_comp {α β : Type} (f : α → β) (p : β → Bool) (l : List α) :
    (l.map f).all p = l.all (fun a => p (f a)) := by
  induction l with
  | nil => rfl
  | cons a l ih => simp [List.all_cons, ih]

/-! ### C1: the display-status derivation cascade -/

/-- **C1** (amended: step 5 reads the processing department as non-blank, not
merely non-empty).  The display status computed by
`render_work_order_operation` equals the first-match-wins evaluation of the
claimed precedence list: resolved, replied (with collaborative sub-classing),
rejected-to-dispatch-center, processing heuristic, assigned heuristic,
pending. -/
theorem display_status_matches_precedence_list (st : DBState) (p : Problem) :
    displayStatus st p = displayStatusAmended st p := by
  simp only [displayStatus, displayStatusAmended, firstMatch, repliedResult]
  rw [strTruthyTrimmed_eq_strip]

/-- **C1 counterexample**: on a ticket whose processing unit is the non-empty
but blank string `" "` (raw status `处理中`, no records, no flags), the code
displays `待处理` while the claimed step 5 fires and yields `已派发`. -/
theorem display_status_claimed_fails_on_blank_unit :
    displayStatus blankUnitState blankUnitProblem = "待处理" ∧
      displayStatusClaimed blankUnitState blankUnitProblem = "已派发" := by
  constructor <;> decide

/-! ### C3: the collaborative completion check -/

/-- **C3** (amended: the count that short-circuits to true is the count of
non-dispatch-center associations, not of all associations).  The source's
completion check equals the amended predicate on every store and ticket. -/
theorem check_all_departments_matches_amended (st : DBState) (pid : Nat) :
    check_all_collaborative_departments_processed st pid =
      allDepartmentsProcessedAmended st pid := by
  unfold check_all_collaborative_departments_processed allDepartmentsProcessedAmended
    dept_has_reply_record
  have hlen : ∀ l : List DeptAssoc,
      ((stableSortBy assocBefore l).map DeptAssoc.department).length
        = (l.map DeptAssoc.department).length := by
    intro l; rw [List.length_map, List.length_map, stableSortBy_length]
  have hall : ∀ (l : List DeptAssoc) (q : String → Bool),
      ((stableSortBy assocBefore l).map DeptAssoc.department).all q
        = (l.map DeptAssoc.department).all q := by
    intro l q; rw [all_map_comp, all_map_comp, stableSortBy_all]
  dsimp only
  rw [hlen, hall]

/-- **C3 counterexample**: association set `{调度中心, 销售部}` with no records:
total association count is 2, `销售部` has no processed-reply record, so the
claimed predicate is false — yet the code returns true, because only one
non-dispatch-center association exists. -/
theorem check_all_departments_claimed_fails_on_dispatch_assoc :
    check_all_collaborative_departments_processed mixedAssocState 1 = true ∧
      allDepartmentsProcessedClaimed mixedAssocState 1 = false := by
  constructor <;> decide

/-! ### C4: the rejected-to-dispatch-center detection -/

/-- **C4** (amended: the marker is looked for in *any* processing record of the
history, not only the most recent one).  Under the status/unit/count guards,
the step-3 condition fires exactly when some record of the ticket's history
carries a rejection marker. -/
theorem rejected_condition_scans_whole_history (st : DBState) (p : Problem) :
    rejected_to_dispatch_condition st p =
      (p.status == "待处理" && p.processing_unit == "调度中心" &&
        decide (0 < processing_records_count st p.id) &&
        (get_processing_records st p.id).any
          (fun r => strContainsSub r.measure "工单被驳回" ||
            strContainsSub r.measure "驳回")) := by
  unfold rejected_to_dispatch_condition is_rejected_work_order
  rw [List.any_reverse]

/-- **C4 counterexample**: a ticket pending at the dispatch center whose
history is an old rejection record followed by a newer marker-free note.  The
most recent record carries no rejection marker, so the claimed latest-record
reading is false — yet the code's condition holds. -/
theorem rejected_condition_claimed_fails_on_stale_marker :
    rejected_to_dispatch_condition staleRejectState staleRejectProblem = true ∧
      rejected_to_dispatch_claimed staleRejectState staleRejectProblem = false := by
  constructor <;> decide

/-! ### C2: the last collaborative reply -/

/-- **C2** (code bug witnessed at the failing input): support (`客服部`) is the
last department without a processed-reply on the collaborative ticket, yet its
Reply leaves the association set `[销售部, 客服部]` untouched (nothing collapses
to the dispatch center), because the completion check runs before this reply's
own record is inserted; afterwards the *displayed* status nevertheless reads
`已处理回复（协同完成）`, since display-time re-runs the check when the record
exists. -/
theorem reply_by_last_department_does_not_collapse :
    (get_problem_departments replyScenarioAfter 1).map DeptAssoc.department
        = ["销售部", "客服部"] ∧
      (get_problem_departments replyScenarioAfter 1).map DeptAssoc.department
        ≠ ["调度中心"] ∧
      (getProblemById replyScenarioAfter 1).map (displayStatus replyScenarioAfter)
        = some "已处理回复（协同完成）" := by
  refine ⟨by decide, by decide, by decide⟩

/-! ### C5: transaction boundaries of a transition operation -/

/-- **C5** (amended: the reject transition runs four separately committed
units of work — status update plus log, problem-field reset, association
replacement, record insert — not one).  `reject_work_order` is the sequential
composition of its four commits. -/
theorem reject_spans_four_transactions (st : DBState) (pid : Nat)
    (op reason dept : String) (now : Nat) :
    reject_work_order st pid op reason dept now =
        (rejectWorkOrderTxns pid op reason dept now).foldl (fun s t => t s) st ∧
      (rejectWorkOrderTxns pid op reason dept now).length = 4 := by
  exact ⟨rfl, rfl⟩

/-- **C5 counterexample**: on the assigned-to-`人力部` ticket, the state after
the first commit of the reject operation is visible to readers and is neither
the initial nor the final state: the raw status is already `待处理` (and a
status log is written) while the association set still reads `[人力部]` — a
partial write, impossible if all mutations shared one transaction. -/
theorem reject_first_commit_exposes_partial_write :
    (getProblemById (rejectTxn1 1 "王五" "不属于本部门" 20 assignedHRState) 1).map
        Problem.status = some "待处理" ∧
      (get_problem_departments (rejectTxn1 1 "王五" "不属于本部门" 20 assignedHRState) 1).map
        DeptAssoc.department = ["人力部"] ∧
      rejectTxn1 1 "王五" "不属于本部门" 20 assignedHRState ≠ assignedHRState ∧
      rejectTxn1 1 "王五" "不属于本部门" 20 assignedHRState ≠
        reject_work_order assignedHRState 1 "王五" "不属于本部门" "人力部" 20 := by
  refine ⟨by decide, by decide, by decide, by decide⟩

/-! ### C6: the status-log old-value field -/

/-- **C6** (code bug witnessed at the failing input): updating the pending
ticket's status to `已派发` appends a log entry whose `old_status` reads
`已派发` — the *new* value — because the filling subselect runs after the
`UPDATE` in the same transaction; the status actually held before the
transition was `待处理`. -/
theorem status_log_old_value_reads_new_status :
    pendingLogProblem.status = "待处理" ∧
      (update_problem_status pendingLogState 1 "已派发" "调度员" "工单已派发" 5).status_logs.map
          StatusLog.old_status = [some "已派发"] := by
  refine ⟨by decide, by decide⟩

/-! ### More helper lemmas: filters, find?, markers -/

theorem assoc_filter_out_then_in (pid : Nat) (l : List DeptAssoc) :
    (l.filter (fun a => !(a.problem_id == pid))).filter
      (fun a => a.problem_id == pid) = [] := by
  induction l with
  | nil => rfl
  | cons a l ih =>
    by_cases h : (a.problem_id == pid) = true
    · simp [List.filter_cons, h, ih]
    · simp [List.filter_cons, h, ih]

theorem find?_id_map_update (l : List Problem) (pid : Nat) (f : Problem → Problem)
    (hf : ∀ q, (f q).id = q.id) :
    (l.map (fun q => if q.id == pid then f q else q)).find? (fun q => q.id == pid)
      = (l.find? (fun q => q.id == pid)).map f := by
  induction l with
  | nil => rfl
  | cons a l ih =>
    by_cases h : a.id = pid
    · have hb : (a.id == pid) = true := by simpa using h
      have hfb : ((f a).id == pid) = true := by simp [hf, h]
      simp only [List.map_cons, hb, if_true]
      rw [@List.find?_cons_of_pos _ (fun q => q.id == pid) (f a) _ hfb,
        @List.find?_cons_of_pos _ (fun q => q.id == pid) a _ hb]
      rfl
    · have hb : (a.id == pid) = false := by simpa using h
      have hb' : ¬((a.id == pid) = true) := by simp [hb]
      simp only [List.map_cons, hb, Bool.false_eq_true, if_false]
      rw [@List.find?_cons_of_neg _ (fun q => q.id == pid) a _ hb',
        @List.find?_cons_of_neg _ (fun q => q.id == pid) a _ hb', ih]

theorem subSeek_bohui_after (tail : List Char) :
    subSeek ['驳', '回'] ('工' :: '单' :: '被' :: '驳' :: '回' :: tail) = true := by
  simp [subSeek, List.isPrefixOf]

theorem reject_measure_contains_marker (reason : String) :
    strContainsSub ("工单被驳回，驳回原因：" ++ reason ++ "，流转至调度中心") "驳回" = true := by
  unfold strContainsSub
  have hn : "驳回".data = ['驳', '回'] := by decide
  have h1 : ("工单被驳回，驳回原因：" ++ reason ++ "，流转至调度中心").data
      = "工单被驳回，驳回原因：".data ++ reason.data ++ "，流转至调度中心".data := rfl
  have h2 : "工单被驳回，驳回原因：".data
      = ['工', '单', '被', '驳', '回', '，', '驳', '回', '原', '因', '：'] := by decide
  rw [hn, h1, h2]
  simp only [List.cons_append, List.append_assoc, List.nil_append]
  exact subSeek_bohui_after _

/-! ### C7: the assignment round-trip -/

/-- **C7**: assigning the ordered departments `[A, B, C]` and reading the
associations back returns exactly `[A, B, C]` in that order, with `A` — and
only `A` — flagged primary. -/
theorem assign_departments_round_trip (st : DBState) (pid : Nat)
    (A B C actor : String) (now : Nat) :
    (get_problem_departments
        (assign_to_multiple_departments st pid [A, B, C] actor now) pid).map
      (fun a => (a.department, a.is_primary)) = [(A, true), (B, false), (C, false)] := by
  unfold assign_to_multiple_departments get_problem_departments
  dsimp only [List.enum, List.enumFrom, List.map]
  rw [List.filter_append, assoc_filter_out_then_in]
  simp [stableSortBy, insertSorted, assocBefore, List.filter_cons]

/-! ### C8: rejecting an assigned ticket -/

/-- **C8**: rejecting a ticket sets its raw status back to `待处理`, resets the
processing department to `调度中心`, clears the processing person and the
processing flag, replaces all associations with a single primary
dispatch-center row, and appends exactly one processing record whose measure
carries the rejection marker `驳回`. -/
theorem reject_resets_to_dispatch_center (st : DBState) (pid : Nat)
    (op reason dept : String) (now : Nat) (p : Problem)
    (h : getProblemById st pid = some p) :
    getProblemById (reject_work_order st pid op reason dept now) pid =
        some { p with status := "待处理", processing_unit := "调度中心",
                      processing_person := none, processing_status := "待处理",
                      is_processing := false, updated_at := now } ∧
      (get_problem_departments (reject_work_order st pid op reason dept now) pid).map
          (fun a => (a.department, a.is_primary)) = [("调度中心", true)] ∧
      get_processing_records (reject_work_order st pid op reason dept now) pid =
        get_processing_records st pid ++
          [ProcessingRecord.mk pid op
            ("工单被驳回，驳回原因：" ++ reason ++ "，流转至调度中心") dept
            (some "待分配") now] ∧
      strContainsSub ("工单被驳回，驳回原因：" ++ reason ++ "，流转至调度中心")
        "驳回" = true := by
  refine ⟨?_, ?_, ?_, reject_measure_contains_marker reason⟩
  · unfold getProblemById at h ⊢
    unfold reject_work_order rejectTxn4 rejectTxn3 rejectTxn2 rejectTxn1
      add_processing_record update_problem_status
    dsimp only
    rw [find?_id_map_update _ pid (fun q => { q with processing_unit := "调度中心", processing_person := none, processing_status := "待处理", is_processing := false, updated_at := now }) (fun q => rfl)]
    rw [find?_id_map_update _ pid (fun q => { q with status := "待处理", updated_at := now }) (fun q => rfl)]
    rw [h]
    rfl
  · unfold reject_work_order rejectTxn4 rejectTxn3 rejectTxn2 rejectTxn1
      add_processing_record update_problem_status get_problem_departments
    dsimp only
    rw [List.filter_append, assoc_filter_out_then_in]
    simp [stableSortBy, insertSorted]
  · unfold reject_work_order rejectTxn4 rejectTxn3 rejectTxn2 rejectTxn1
      add_processing_record update_problem_status get_processing_records
    dsimp only
    rw [List.filter_append]
    simp

/-- **C8 witness**: the reject of the assigned-to-`人力部` ticket, evaluated. -/
theorem reject_resets_to_dispatch_center_witness :
    getProblemById assignedHRState 1 = some assignedHRProblem ∧
      (getProblemById (reject_work_order assignedHRState 1 "王五" "不属于本部门" "人力部" 20) 1 =
          some { assignedHRProblem with status := "待处理", processing_unit := "调度中心", processing_person := none, processing_status := "待处理", is_processing := false, updated_at := 20 } ∧
        (get_problem_departments (reject_work_order assignedHRState 1 "王五" "不属于本部门" "人力部" 20) 1).map
            (fun a => (a.department, a.is_primary)) = [("调度中心", true)] ∧
        get_processing_records (reject_work_order assignedHRState 1 "王五" "不属于本部门" "人力部" 20) 1 =
          get_processing_records assignedHRState 1 ++
            [ProcessingRecord.mk 1 "王五"
              ("工单被驳回，驳回原因：" ++ "不属于本部门" ++ "，流转至调度中心") "人力部"
              (some "待分配") 20] ∧
        strContainsSub ("工单被驳回，驳回原因：" ++ "不属于本部门" ++ "，流转至调度中心")
          "驳回" = true) :=
  ⟨by decide,
    reject_resets_to_dispatch_center assignedHRState 1 "王五" "不属于本部门" "人力部" 20
      assignedHRProblem (by decide)⟩

/-! ### C9: the replied-ticket permission carve-out -/

/-- **C9**: a non-dispatch-center actor of any role is denied operation on a
ticket whose displayed status is exactly `已处理回复` (non-collaborative
replied) when the ticket's processing department is not the actor's — no
matter what the association or collaboration tables say. -/
theorem replied_foreign_department_denied (st : DBState) (p : Problem)
    (role dept : String) (h1 : dept ≠ "调度中心")
    (h2 : displayStatus st p = "已处理回复") (h3 : p.processing_unit ≠ dept) :
    canOperate st p role dept = false := by
  have hb1 : (dept == "调度中心") = false := by simpa using h1
  have hb3 : (p.processing_unit != dept) = true := by simp [bne, h3]
  unfold canOperate
  dsimp only
  simp [h2, hb1, hb3]

/-- **C9 witness**: a processor of `人力部` on a replied ticket processed by
`市场部`, where `人力部` is in the association set and owns a
collaboration-marked record — still denied. -/
theorem replied_foreign_department_denied_witness :
    ("人力部" ≠ "调度中心" ∧
        displayStatus repliedForeignState repliedForeignProblem = "已处理回复" ∧
        repliedForeignProblem.processing_unit ≠ "人力部" ∧
        is_department_assigned_to_problem repliedForeignState 1 "人力部" = true ∧
        is_department_collaborating_on_problem repliedForeignState 1 "人力部" = true) ∧
      canOperate repliedForeignState repliedForeignProblem "processor" "人力部" = false :=
  ⟨by refine ⟨by decide, by decide, by decide, by decide, by decide⟩,
    replied_foreign_department_denied repliedForeignState repliedForeignProblem
      "processor" "人力部" (by decide) (by decide) (by decide)⟩

/-! ### C10: initial state of a created ticket -/

/-- **C10 counterexample**: creating a ticket with the *empty* response
department — a value different from both `未定` and `调度中心` — does not start
it as `已派发`: the row keeps status `待处理` with a dispatch-center
association, because the source treats any falsy response department like the
undetermined case. -/
theorem save_problem_empty_response_stays_pending :
    ("" ≠ "未定" ∧ "" ≠ "调度中心") ∧
      (getProblemById (save_problem emptyState 1 "t" "建议" "d" "张三" "" "网络部" "" 0) 1).map
          Problem.status = some "待处理" ∧
      (get_problem_departments (save_problem emptyState 1 "t" "建议" "d" "张三" "" "网络部" "" 0) 1).map
          DeptAssoc.department = ["调度中心"] := by
  refine ⟨⟨by decide, by decide⟩, by decide, by decide⟩

/-- **C10** (amended: the direct-dispatch path additionally requires the
response department to be non-empty; an empty one is treated like the
undetermined case).  On a fresh ticket id, creation with a non-empty response
department other than `未定` and `调度中心` yields raw status `已派发`,
processing unit equal to that department and exactly one primary association
for it; otherwise the ticket starts `待处理` with a single primary
dispatch-center association. -/
theorem save_problem_initial_state (st : DBState) (pid : Nat)
    (title category description author contact_info department resp : String)
    (now : Nat) (h1 : getProblemById st pid = none)
    (h2 : st.problem_departments.filter (fun a => a.problem_id == pid) = []) :
    (resp ≠ "" → resp ≠ "未定" → resp ≠ "调度中心" →
      getProblemById
          (save_problem st pid title category description author contact_info department resp now) pid =
          some { id := pid, title := title, author := author, department := department, status := "已派发", processing_unit := resp, processing_person := some "", processing_status := "待处理", is_processing := false, is_resolved := false, response_department := resp, initial_processing_unit := resp, initial_status := "已派发", updated_at := now } ∧
        (get_problem_departments
            (save_problem st pid title category description author contact_info department resp now) pid).map
          (fun a => (a.department, a.is_primary)) = [(resp, true)]) ∧
    (resp = "" ∨ resp = "未定" ∨ resp = "调度中心" →
      getProblemById
          (save_problem st pid title category description author contact_info department resp now) pid =
          some { id := pid, title := title, author := author, department := department, status := "待处理", processing_unit := "调度中心", processing_person := some "", processing_status := "待处理", is_processing := false, is_resolved := false, response_department := resp, initial_processing_unit := "调度中心", initial_status := "待处理", updated_at := now } ∧
        (get_problem_departments
            (save_problem st pid title category description author contact_info department resp now) pid).map
          (fun a => (a.department, a.is_primary)) = [("调度中心", true)]) := by
  have hfind : ∀ row : Problem, row.id = pid →
      (st.problems ++ [row]).find? (fun q => q.id == pid) = some row := by
    intro row hrow
    rw [List.find?_append]
    rw [getProblemById] at h1
    rw [h1]
    simp [List.find?_cons, hrow]
  constructor
  · intro hne1 hne2 hne3
    have hdirect : (resp != "" && resp != "未定" && resp != "调度中心") = true := by
      simp [bne, hne1, hne2, hne3]
    unfold save_problem
    dsimp only
    rw [hdirect]
    simp only [if_true]
    constructor
    · unfold getProblemById
      dsimp only
      rw [find?_id_map_update _ pid (fun q => { q with processing_unit := resp, status := "已派发" }) (fun q => rfl)]
      rw [hfind _ rfl]
      rfl
    · unfold get_problem_departments
      dsimp only
      rw [List.filter_append, h2]
      simp [stableSortBy, insertSorted]
  · intro hcase
    have hdirect : (resp != "" && resp != "未定" && resp != "调度中心") = false := by
      rcases hcase with hc | hc | hc <;> simp [bne, hc]
    unfold save_problem
    dsimp only
    rw [hdirect]
    simp only [Bool.false_eq_true, if_false]
    constructor
    · unfold getProblemById
      dsimp only
      rw [hfind _ rfl]
    · unfold get_problem_departments
      dsimp only
      rw [List.filter_append, h2]
      simp [stableSortBy, insertSorted]

/-- **C10 witness**: creating a ticket with response department `网络部` on the
fresh store, and with response department `未定`, evaluated through the amended
theorem. -/
theorem save_problem_initial_state_witness :
    (getProblemById emptyState 1 = none ∧
        emptyState.problem_departments.filter (fun a => a.problem_id == 1) = []) ∧
      (("网络部" ≠ "" → "网络部" ≠ "未定" → "网络部" ≠ "调度中心" →
        getProblemById (save_problem emptyState 1 "t" "建议" "d" "张三" "" "网络部" "网络部" 0) 1 =
            some { id := 1, title := "t", author := "张三", department := "网络部", status := "已派发", processing_unit := "网络部", processing_person := some "", processing_status := "待处理", is_processing := false, is_resolved := false, response_department := "网络部", initial_processing_unit := "网络部", initial_status := "已派发", updated_at := 0 } ∧
          (get_problem_departments (save_problem emptyState 1 "t" "建议" "d" "张三" "" "网络部" "网络部" 0) 1).map
            (fun a => (a.department, a.is_primary)) = [("网络部", true)]) ∧
      ("网络部" = "" ∨ "网络部" = "未定" ∨ "网络部" = "调度中心" →
        getProblemById (save_problem emptyState 1 "t" "建议" "d" "张三" "" "网络部" "网络部" 0) 1 =
            some { id := 1, title := "t", author := "张三", department := "网络部", status := "待处理", processing_unit := "调度中心", processing_person := some "", processing_status := "待处理", is_processing := false, is_resolved := false, response_department := "网络部", initial_processing_unit := "调度中心", initial_status := "待处理", updated_at := 0 } ∧
          (get_problem_departments (save_problem emptyState 1 "t" "建议" "d" "张三" "" "网络部" "网络部" 0) 1).map
            (fun a => (a.department, a.is_primary)) = [("调度中心", true)])) :=
  ⟨⟨by decide, by decide⟩,
    save_problem_initial_state emptyState 1 "t" "建议" "d" "张三" "" "网络部" "网络部" 0
      (by decide) (by decide)⟩

end Gonghui
